import Mathlib

/-!
Shallow embedding of `src/firmware/common/portapack_persistent_memory.cpp`
(PortaPack persistent-memory store): a checksum-validated backup-RAM record,
an in-memory cache of it, and range-checked field accessors.

Machine integers are modelled as `Nat` / `Int` with explicit `% 2^32` /
masking where the C++ code relies on 32-bit wraparound.  Collaborating code
that is not under `src/` (the CRC engine of `crc.hpp`, `range_t` of
`utility.hpp`, the touch-calibration and serial-format value types, and the
external `rf::tuning_range` policy) is modelled from the spec, as marked on
each such definition.
-/

namespace PortapackPM

/-! ## Checksum engine -/

/-- Modelled from the spec: the polynomial of the 32-bit CRC configured in
`backup_ram_t::compute_check_value` (`CRC<32> crc { 0x04c11db7, 0xffffffff, 0xffffffff }`,
engine in `crc.hpp`, not under `src/`). -/
def crc32_polynomial : Nat := 0x04c11db7

/-- Modelled from the spec: one CRC register bit step (MSB-first, unreflected),
keeping the register in 32 bits. -/
def crcBitStep (r : Nat) : Nat :=
  let r2 := (r <<< 1) &&& 0xFFFFFFFF
  if r &&& 0x80000000 = 0 then r2 else r2 ^^^ crc32_polynomial

/-- Modelled from the spec: `CRC<32>::process_byte` — XOR the byte into the top
of the register, then run eight bit steps. -/
def crcProcessByte (r b : Nat) : Nat :=
  let r0 := r ^^^ ((b &&& 0xff) <<< 24)
  crcBitStep (crcBitStep (crcBitStep (crcBitStep
    (crcBitStep (crcBitStep (crcBitStep (crcBitStep r0)))))))

/-- Modelled from the spec: the CRC over a byte list, from initial register
`0xFFFFFFFF`, with final XOR `0xFFFFFFFF`. -/
def crcBytes (bytes : List Nat) : Nat :=
  (bytes.foldl crcProcessByte 0xFFFFFFFF) ^^^ 0xFFFFFFFF

/-! ## Collaborating value types -/

/-- Modelled from the spec: the touch-calibration blob (`touch::Calibration`,
not under `src/`), a default-constructible value; its size is not given by the
spec, so it is modelled as a seven-word blob.  No claim depends on its size or
content. -/
structure Calibration where
  w0 : Nat
  w1 : Nat
  w2 : Nat
  w3 : Nat
  w4 : Nat
  w5 : Nat
  w6 : Nat
deriving DecidableEq

/-- Modelled from the spec: the default-constructed calibration
(`touch::Calibration()`); concrete content unspecified, modelled as zeros. -/
def Calibration.defaultValue : Calibration := ⟨0, 0, 0, 0, 0, 0, 0⟩

/-- Modelled from the spec: the serial-format value type (`serial_format_t`,
not under `src/`), one word, default-constructed to zero. -/
def serial_format_default : Nat := 0

/-- Modelled from the spec: `range_t<T>` of `utility.hpp` (not under `src/`),
an inclusive range with saturating `clip` and `reset_if_outside` policies. -/
structure range_t where
  minimum : Int
  maximum : Int
deriving DecidableEq

/-- Modelled from the spec: clamp `v` into `[minimum, maximum]` (saturate to
nearest bound, not reject). -/
def range_t.clip (r : range_t) (v : Int) : Int :=
  max r.minimum (min r.maximum v)

/-- Modelled from the spec: if `v` is outside `[minimum, maximum]`, replace it
by `reset`, otherwise keep it. -/
def range_t.reset_if_outside (r : range_t) (v reset : Int) : Int :=
  if v < r.minimum ∨ v > r.maximum then reset else v

/-! ## Compile-time range and reset constants (lines 40–71 of the source) -/

def tuned_frequency_reset_value : Int := 100000000

def ppb_range : range_t := ⟨-99000, 99000⟩
def ppb_reset_value : Int := 0

def tone_mix_range : range_t := ⟨10, 99⟩
def tone_mix_reset_value : Int := 20

def afsk_freq_range : range_t := ⟨1, 4000⟩
def afsk_mark_reset_value : Int := 1200
def afsk_space_reset_value : Int := 2200

def modem_baudrate_range : range_t := ⟨50, 9600⟩
def modem_baudrate_reset_value : Int := 1200

def modem_repeat_range : range_t := ⟨1, 99⟩
def modem_repeat_reset_value : Int := 5

/-- `range_t<uint32_t>` instantiation for the CLKOUT frequency. -/
def clkout_freq_range_minimum : Nat := 10
def clkout_freq_range_maximum : Nat := 60000
def clkout_freq_reset_value : Nat := 10000

/-- Modelled from the spec: `range_t<uint32_t>::clip` for the CLKOUT range. -/
def clkout_clip (v : Nat) : Nat :=
  max clkout_freq_range_minimum (min clkout_freq_range_maximum v)

def TOUCH_CALIBRATION_MAGIC : Nat := 0x074af82f

/-! ## The typed record (`struct data_t`) -/

/-- `data_t`: the typed overlay of the register file.  `int32_t`/`int64_t`
fields are `Int`, `uint32_t` fields are `Nat`. -/
structure data_t where
  tuned_frequency : Int
  correction_ppb : Int
  touch_calibration_magic : Nat
  touch_calibration : Calibration
  modem_def_index : Nat
  serial_format : Nat
  modem_bw : Int
  afsk_mark_freq : Int
  afsk_space_freq : Int
  modem_baudrate : Int
  modem_repeat : Int
  playdead_magic : Nat
  playing_dead : Nat
  playdead_sequence : Nat
  ui_config : Nat
  pocsag_last_address : Nat
  pocsag_ignore_address : Nat
  tone_mix : Int
  hardware_config : Nat
deriving DecidableEq

/-- The `constexpr data_t()` constructor: every field at its compiled-in
default.  `ui_config` is `(1 << 31) | (1 << 28) | (clkout_freq_reset_value << 4) | (7 << 0)`. -/
def data_t.defaultValue : data_t where
  tuned_frequency := tuned_frequency_reset_value
  correction_ppb := ppb_reset_value
  touch_calibration_magic := TOUCH_CALIBRATION_MAGIC
  touch_calibration := Calibration.defaultValue
  modem_def_index := 0
  serial_format := serial_format_default
  modem_bw := 15000
  afsk_mark_freq := afsk_mark_reset_value
  afsk_space_freq := afsk_space_reset_value
  modem_baudrate := modem_baudrate_reset_value
  modem_repeat := modem_repeat_reset_value
  playdead_magic := 0
  playing_dead := 0
  playdead_sequence := 0
  ui_config := (1 <<< 31) ||| (1 <<< 28) ||| (clkout_freq_reset_value <<< 4) ||| 7
  pocsag_last_address := 0
  pocsag_ignore_address := 0
  tone_mix := tone_mix_reset_value
  hardware_config := 0

/-! ## Word-level image of `data_t` (`copy_from_data_t` overlay) -/

/-- Two's-complement image of an `int32_t` as one little-endian register word. -/
def u32ofInt (x : Int) : Nat := (x % (2 ^ 32 : Int)).toNat

/-- Low register word of an `int64_t`. -/
def u64lo (x : Int) : Nat := (x % (2 ^ 64 : Int)).toNat % 2 ^ 32

/-- High register word of an `int64_t`. -/
def u64hi (x : Int) : Nat := (x % (2 ^ 64 : Int)).toNat / 2 ^ 32

/-- The 63 register-file words of a record whose payload holds `d`:
the words of `data_t` in declaration order followed by zero padding, as
produced by `copy_from_data_t`.  Word offsets of the fields after the
calibration blob depend on the modelled blob size; no claim depends on them. -/
def regfileWords (d : data_t) : List Nat :=
  [u64lo d.tuned_frequency, u64hi d.tuned_frequency,
   u32ofInt d.correction_ppb,
   d.touch_calibration_magic,
   d.touch_calibration.w0, d.touch_calibration.w1, d.touch_calibration.w2,
   d.touch_calibration.w3, d.touch_calibration.w4, d.touch_calibration.w5,
   d.touch_calibration.w6,
   d.modem_def_index,
   d.serial_format,
   u32ofInt d.modem_bw,
   u32ofInt d.afsk_mark_freq,
   u32ofInt d.afsk_space_freq,
   u32ofInt d.modem_baudrate,
   u32ofInt d.modem_repeat,
   d.playdead_magic, d.playing_dead, d.playdead_sequence,
   d.ui_config,
   d.pocsag_last_address, d.pocsag_ignore_address,
   u32ofInt d.tone_mix,
   d.hardware_config] ++ List.replicate 37 0

/-! ## `struct backup_ram_t` -/

/-- `backup_ram_t`: 63 register-file words (here kept in typed form, their
word image being `regfileWords`) plus the trailing `check_value` word. -/
structure backup_ram_t where
  data : data_t
  check_value : Nat
deriving DecidableEq

/-- One iteration of the `compute_check_value` loop: feed the four bytes of a
register word, low byte first, into the CRC. -/
def crcWordStep (acc w : Nat) : Nat :=
  crcProcessByte (crcProcessByte (crcProcessByte (crcProcessByte acc
    ((w >>> 0) &&& 0xff)) ((w >>> 8) &&& 0xff)) ((w >>> 16) &&& 0xff))
    ((w >>> 24) &&& 0xff)

/-- `compute_check_value`: feed the four bytes of each of the 63 register
words, low byte first, into the CRC. -/
def backup_ram_t.compute_check_value (r : backup_ram_t) : Nat :=
  ((regfileWords r.data).foldl crcWordStep 0xFFFFFFFF) ^^^ 0xFFFFFFFF

/-- The default constructor `backup_ram_t()`: `check_value(0)`, then
`copy_from_data_t(data_t(), *this)`. -/
def backup_ram_t.defaultValue : backup_ram_t :=
  { data := data_t.defaultValue, check_value := 0 }

/-- `is_valid`: recompute the check value and compare with the stored one. -/
def backup_ram_t.is_valid (r : backup_ram_t) : Bool :=
  r.compute_check_value == r.check_value

/-- `persist_to`: update `check_value` from the current payload, then copy the
whole record to the destination.  Returns (updated source, new destination);
the destination's previous content is fully overwritten. -/
def backup_ram_t.persist_to (src : backup_ram_t) : backup_ram_t × backup_ram_t :=
  let src2 : backup_ram_t := { src with check_value := src.compute_check_value }
  (src2, src2)

/-! ## Global state: the physical record and the cache -/

/-- The two `backup_ram_t` instances of the module: the physical backing
record at `memory::map::backup_ram.base()` and the in-memory
`cached_backup_ram` that all field accessors operate on. -/
structure State where
  backup_ram : backup_ram_t
  cached_backup_ram : backup_ram_t
deriving DecidableEq

namespace cache

/-- `cache::defaults()`: overwrite the cache with a default-constructed record. -/
def defaults (s : State) : State :=
  { s with cached_backup_ram := backup_ram_t.defaultValue }

/-- `cache::init()`: adopt the physical record if its checksum verifies,
otherwise load defaults into the cache. -/
def init (s : State) : State :=
  if s.backup_ram.is_valid then
    { s with cached_backup_ram := s.backup_ram }
  else
    defaults s

/-- `cache::persist()`: `cached_backup_ram.persist_to(*backup_ram)`. -/
def persist (s : State) : State :=
  let p := s.cached_backup_ram.persist_to
  { backup_ram := p.2, cached_backup_ram := p.1 }

end cache

/-! ## Field accessors

These operate on the cached record's `data_t` view (`data` aliases
`cached_backup_ram` in the source); they are given here as pure functions on
`data_t`.  Getters of ranged fields return the read value together with the
(possibly repaired) record. -/

/-- `tuned_frequency()`.  `rf::tuning_range` is an external collaborator
(not under `src/`); modelled from the spec as an explicit range parameter. -/
def tuned_frequency (tuning_range : range_t) (d : data_t) : Int × data_t :=
  let v := tuning_range.reset_if_outside d.tuned_frequency tuned_frequency_reset_value
  (v, { d with tuned_frequency := v })

/-- `set_tuned_frequency(new_value)`. -/
def set_tuned_frequency (tuning_range : range_t) (new_value : Int) (d : data_t) : data_t :=
  { d with tuned_frequency := tuning_range.clip new_value }

/-- `correction_ppb()`. -/
def correction_ppb (d : data_t) : Int × data_t :=
  let v := ppb_range.reset_if_outside d.correction_ppb ppb_reset_value
  (v, { d with correction_ppb := v })

/-- `set_correction_ppb(new_value)`.  The notification of
`portapack::clock_manager` is an external side effect outside this core. -/
def set_correction_ppb (new_value : Int) (d : data_t) : data_t :=
  { d with correction_ppb := ppb_range.clip new_value }

/-- `set_touch_calibration(new_value)`: store the blob and unconditionally
rewrite the magic word. -/
def set_touch_calibration (new_value : Calibration) (d : data_t) : data_t :=
  { d with touch_calibration := new_value,
           touch_calibration_magic := TOUCH_CALIBRATION_MAGIC }

/-- `touch_calibration()`: install the default calibration first if the magic
word does not match. -/
def touch_calibration (d : data_t) : Calibration × data_t :=
  if d.touch_calibration_magic ≠ TOUCH_CALIBRATION_MAGIC then
    let d2 := set_touch_calibration Calibration.defaultValue d
    (d2.touch_calibration, d2)
  else
    (d.touch_calibration, d)

/-- `tone_mix()`. -/
def tone_mix (d : data_t) : Int × data_t :=
  let v := tone_mix_range.reset_if_outside d.tone_mix tone_mix_reset_value
  (v, { d with tone_mix := v })

/-- `set_tone_mix(new_value)`. -/
def set_tone_mix (new_value : Int) (d : data_t) : data_t :=
  { d with tone_mix := tone_mix_range.clip new_value }

/-- `afsk_mark_freq()`. -/
def afsk_mark_freq (d : data_t) : Int × data_t :=
  let v := afsk_freq_range.reset_if_outside d.afsk_mark_freq afsk_mark_reset_value
  (v, { d with afsk_mark_freq := v })

/-- `set_afsk_mark(new_value)`. -/
def set_afsk_mark (new_value : Int) (d : data_t) : data_t :=
  { d with afsk_mark_freq := afsk_freq_range.clip new_value }

/-- `afsk_space_freq()`. -/
def afsk_space_freq (d : data_t) : Int × data_t :=
  let v := afsk_freq_range.reset_if_outside d.afsk_space_freq afsk_space_reset_value
  (v, { d with afsk_space_freq := v })

/-- `set_afsk_space(new_value)`. -/
def set_afsk_space (new_value : Int) (d : data_t) : data_t :=
  { d with afsk_space_freq := afsk_freq_range.clip new_value }

/-- `modem_baudrate()`. -/
def modem_baudrate (d : data_t) : Int × data_t :=
  let v := modem_baudrate_range.reset_if_outside d.modem_baudrate modem_baudrate_reset_value
  (v, { d with modem_baudrate := v })

/-- `set_modem_baudrate(new_value)`. -/
def set_modem_baudrate (new_value : Int) (d : data_t) : data_t :=
  { d with modem_baudrate := modem_baudrate_range.clip new_value }

/-- The `uint32_t → int32_t` conversion applied to the parameter of
`set_modem_repeat` (two's-complement reinterpretation). -/
def toInt32 (n : Nat) : Int :=
  if n % 2 ^ 32 < 2 ^ 31 then ((n % 2 ^ 32 : Nat) : Int)
  else ((n % 2 ^ 32 : Nat) : Int) - 2 ^ 32

/-- `modem_repeat()`: repairs the stored `int32_t`, returns it as `uint8_t`. -/
def modem_repeat (d : data_t) : Nat × data_t :=
  let v := modem_repeat_range.reset_if_outside d.modem_repeat modem_repeat_reset_value
  ((v % 256).toNat, { d with modem_repeat := v })

/-- `set_modem_repeat(new_value)` (`uint32_t` parameter clipped through the
`int32_t` range). -/
def set_modem_repeat (new_value : Nat) (d : data_t) : data_t :=
  { d with modem_repeat := modem_repeat_range.clip (toInt32 new_value) }

/-- `serial_format()`. -/
def serial_format (d : data_t) : Nat := d.serial_format

/-- `set_serial_format(new_value)`. -/
def set_serial_format (new_value : Nat) (d : data_t) : data_t :=
  { d with serial_format := new_value }

/-! Flag setters on `ui_config` (bit-level read/modify/write).  Each writes
`(ui_config & ~(1 << n)) | (v << n)`; the `uint32_t` complement `~(1 << n)` is
`0xFFFFFFFF ^^^ (1 <<< n)`. -/

/-- `set_gui_return_icon(v)` (bit 20). -/
def set_gui_return_icon (v : Bool) (d : data_t) : data_t :=
  { d with ui_config :=
      (d.ui_config &&& (0xFFFFFFFF ^^^ (1 <<< 20))) ||| ((if v then 1 else 0) <<< 20) }

/-- `set_load_app_settings(v)` (bit 21). -/
def set_load_app_settings (v : Bool) (d : data_t) : data_t :=
  { d with ui_config :=
      (d.ui_config &&& (0xFFFFFFFF ^^^ (1 <<< 21))) ||| ((if v then 1 else 0) <<< 21) }

/-- `set_save_app_settings(v)` (bit 22). -/
def set_save_app_settings (v : Bool) (d : data_t) : data_t :=
  { d with ui_config :=
      (d.ui_config &&& (0xFFFFFFFF ^^^ (1 <<< 22))) ||| ((if v then 1 else 0) <<< 22) }

/-- `set_show_bigger_qr_code(v)` (bit 23). -/
def set_show_bigger_qr_code (v : Bool) (d : data_t) : data_t :=
  { d with ui_config :=
      (d.ui_config &&& (0xFFFFFFFF ^^^ (1 <<< 23))) ||| ((if v then 1 else 0) <<< 23) }

/-- `set_disable_touchscreen(v)` (bit 24). -/
def set_disable_touchscreen (v : Bool) (d : data_t) : data_t :=
  { d with ui_config :=
      (d.ui_config &&& (0xFFFFFFFF ^^^ (1 <<< 24))) ||| ((if v then 1 else 0) <<< 24) }

/-- `set_clock_hidden(v)` (bit 25). -/
def set_clock_hidden (v : Bool) (d : data_t) : data_t :=
  { d with ui_config :=
      (d.ui_config &&& (0xFFFFFFFF ^^^ (1 <<< 25))) ||| ((if v then 1 else 0) <<< 25) }

/-- `set_clock_with_date(v)` (bit 26). -/
def set_clock_with_date (v : Bool) (d : data_t) : data_t :=
  { d with ui_config :=
      (d.ui_config &&& (0xFFFFFFFF ^^^ (1 <<< 26))) ||| ((if v then 1 else 0) <<< 26) }

/-- `set_clkout_enabled(v)` (bit 27). -/
def set_clkout_enabled (v : Bool) (d : data_t) : data_t :=
  { d with ui_config :=
      (d.ui_config &&& (0xFFFFFFFF ^^^ (1 <<< 27))) ||| ((if v then 1 else 0) <<< 27) }

/-- `set_config_speaker(v)` (bit 28). -/
def set_config_speaker (v : Bool) (d : data_t) : data_t :=
  { d with ui_config :=
      (d.ui_config &&& (0xFFFFFFFF ^^^ (1 <<< 28))) ||| ((if v then 1 else 0) <<< 28) }

/-- `set_stealth_mode(v)` (bit 29). -/
def set_stealth_mode (v : Bool) (d : data_t) : data_t :=
  { d with ui_config :=
      (d.ui_config &&& (0xFFFFFFFF ^^^ (1 <<< 29))) ||| ((if v then 1 else 0) <<< 29) }

/-- `set_config_login(v)` (bit 30). -/
def set_config_login (v : Bool) (d : data_t) : data_t :=
  { d with ui_config :=
      (d.ui_config &&& (0xFFFFFFFF ^^^ (1 <<< 30))) ||| ((if v then 1 else 0) <<< 30) }

/-- `set_config_splash(v)` (bit 31). -/
def set_config_splash (v : Bool) (d : data_t) : data_t :=
  { d with ui_config :=
      (d.ui_config &&& (0xFFFFFFFF ^^^ (1 <<< 31))) ||| ((if v then 1 else 0) <<< 31) }

/-- `set_config_cpld(i)`. -/
def set_config_cpld (i : Nat) (d : data_t) : data_t :=
  { d with hardware_config := i }

/-- `set_config_backlight_timer(i)` (bits 0–2): `(ui_config & ~7) | (i & 7)`. -/
def set_config_backlight_timer (i : Nat) (d : data_t) : data_t :=
  { d with ui_config := (d.ui_config &&& (0xFFFFFFFF ^^^ 7)) ||| (i &&& 7) }

/-- `pocsag_last_address()`. -/
def pocsag_last_address (d : data_t) : Nat := d.pocsag_last_address

/-- `set_pocsag_last_address(address)`. -/
def set_pocsag_last_address (address : Nat) (d : data_t) : data_t :=
  { d with pocsag_last_address := address }

/-- `pocsag_ignore_address()`. -/
def pocsag_ignore_address (d : data_t) : Nat := d.pocsag_ignore_address

/-- `set_pocsag_ignore_address(address)`. -/
def set_pocsag_ignore_address (address : Nat) (d : data_t) : data_t :=
  { d with pocsag_ignore_address := address }

/-- `clkout_freq()` (bits 4–19 of `ui_config`): reset-if-outside on read. -/
def clkout_freq (d : data_t) : Nat × data_t :=
  let freq := (d.ui_config &&& 0x000FFFF0) >>> 4
  if freq < clkout_freq_range_minimum ∨ freq > clkout_freq_range_maximum then
    (clkout_freq_reset_value,
     { d with ui_config :=
         (d.ui_config &&& (0xFFFFFFFF ^^^ 0x000FFFF0)) |||
           (clkout_freq_reset_value <<< 4) })
  else
    (freq, d)

/-- `set_clkout_freq(freq)` (bits 4–19 of `ui_config`): clamp-on-write. -/
def set_clkout_freq (freq : Nat) (d : data_t) : data_t :=
  { d with ui_config :=
      (d.ui_config &&& (0xFFFFFFFF ^^^ 0x000FFFF0)) ||| (clkout_clip freq <<< 4) }

/-- "No field is out of range": every ranged scalar field (and the CLKOUT
sub-field of `ui_config`) lies inside its declared bounds. -/
def data_t.allInRange (d : data_t) : Prop :=
  (ppb_range.minimum ≤ d.correction_ppb ∧ d.correction_ppb ≤ ppb_range.maximum) ∧
  (tone_mix_range.minimum ≤ d.tone_mix ∧ d.tone_mix ≤ tone_mix_range.maximum) ∧
  (afsk_freq_range.minimum ≤ d.afsk_mark_freq ∧ d.afsk_mark_freq ≤ afsk_freq_range.maximum) ∧
  (afsk_freq_range.minimum ≤ d.afsk_space_freq ∧ d.afsk_space_freq ≤ afsk_freq_range.maximum) ∧
  (modem_baudrate_range.minimum ≤ d.modem_baudrate ∧ d.modem_baudrate ≤ modem_baudrate_range.maximum) ∧
  (modem_repeat_range.minimum ≤ d.modem_repeat ∧ d.modem_repeat ≤ modem_repeat_range.maximum) ∧
  (clkout_freq_range_minimum ≤ (d.ui_config &&& 0x000FFFF0) >>> 4 ∧
    (d.ui_config &&& 0x000FFFF0) >>> 4 ≤ clkout_freq_range_maximum)

instance (d : data_t) : Decidable d.allInRange := by
  unfold data_t.allInRange; infer_instance


/-! ## Concrete evaluation of the default record's check value -/

/-- The register file of the default payload, as 63 concrete words. -/
lemma regfile_default_words :
    regfileWords data_t.defaultValue =
    [0x5f5e100, 0x0, 0x0, 0x74af82f, 0x0, 0x0, 0x0, 0x0,
     0x0, 0x0, 0x0, 0x0, 0x0, 0x3a98, 0x4b0, 0x898, 0x4b0, 0x5,
     0x0, 0x0, 0x0, 0x90027107, 0x0, 0x0, 0x14, 0x0, 0x0, 0x0,
     0x0, 0x0, 0x0, 0x0, 0x0, 0x0, 0x0, 0x0, 0x0, 0x0,
     0x0, 0x0, 0x0, 0x0, 0x0, 0x0, 0x0, 0x0, 0x0, 0x0,
     0x0, 0x0, 0x0, 0x0, 0x0, 0x0, 0x0, 0x0, 0x0, 0x0,
     0x0, 0x0, 0x0, 0x0, 0x0] := by
  decide

/-- Concrete evaluation of the CRC over the default register file, one word per lemma (the elaborator cannot evaluate the whole 63-word fold in one step). -/
lemma crc_default_step_0 : crcWordStep 0xffffffff 0x5f5e100 = 0x147411a3 := by decide
lemma crc_default_step_1 : crcWordStep 0x147411a3 0x0 = 0xe21380f2 := by decide
lemma crc_default_step_2 : crcWordStep 0xe21380f2 0x0 = 0x3c53e066 := by decide
lemma crc_default_step_3 : crcWordStep 0x3c53e066 0x74af82f = 0x6c7d35df := by decide
lemma crc_default_step_4 : crcWordStep 0x6c7d35df 0x0 = 0x6835ba4c := by decide
lemma crc_default_step_5 : crcWordStep 0x6835ba4c 0x0 = 0x7b7b4b46 := by decide
lemma crc_default_step_6 : crcWordStep 0x7b7b4b46 0x0 = 0x9e8e748a := by decide
lemma crc_default_step_7 : crcWordStep 0x9e8e748a 0x0 = 0xfca1f62a := by decide
lemma crc_default_step_8 : crcWordStep 0xfca1f62a 0x0 = 0x98cbab83 := by decide
lemma crc_default_step_9 : crcWordStep 0x98cbab83 0x0 = 0xa4f4d := by decide
lemma crc_default_step_10 : crcWordStep 0xa4f4d 0x0 = 0xf4fe9af6 := by decide
lemma crc_default_step_11 : crcWordStep 0xf4fe9af6 0x0 = 0x8b501188 := by decide
lemma crc_default_step_12 : crcWordStep 0x8b501188 0x0 = 0xd996a950 := by decide
lemma crc_default_step_13 : crcWordStep 0xd996a950 0x3a98 = 0x5173c891 := by decide
lemma crc_default_step_14 : crcWordStep 0x5173c891 0x4b0 = 0x7c909e64 := by decide
lemma crc_default_step_15 : crcWordStep 0x7c909e64 0x898 = 0x5c124740 := by decide
lemma crc_default_step_16 : crcWordStep 0x5c124740 0x4b0 = 0x43557e95 := by decide
lemma crc_default_step_17 : crcWordStep 0x43557e95 0x5 = 0x50156eda := by decide
lemma crc_default_step_18 : crcWordStep 0x50156eda 0x0 = 0xd5d50bc := by decide
lemma crc_default_step_19 : crcWordStep 0xd5d50bc 0x0 = 0xe3893cee := by decide
lemma crc_default_step_20 : crcWordStep 0xe3893cee 0x0 = 0x18999b55 := by decide
lemma crc_default_step_21 : crcWordStep 0x18999b55 0x90027107 = 0x3d12e7ad := by decide
lemma crc_default_step_22 : crcWordStep 0x3d12e7ad 0x0 = 0x4ef098c1 := by decide
lemma crc_default_step_23 : crcWordStep 0x4ef098c1 0x0 = 0x152adba4 := by decide
lemma crc_default_step_24 : crcWordStep 0x152adba4 0x14 = 0x231f24f5 := by decide
lemma crc_default_step_25 : crcWordStep 0x231f24f5 0x0 = 0x67209eaf := by decide
lemma crc_default_step_26 : crcWordStep 0x67209eaf 0x0 = 0x284eece3 := by decide
lemma crc_default_step_27 : crcWordStep 0x284eece3 0x0 = 0x8bd190b8 := by decide
lemma crc_default_step_28 : crcWordStep 0x8bd190b8 0x0 = 0xb0bf3283 := by decide
lemma crc_default_step_29 : crcWordStep 0xb0bf3283 0x0 = 0x8e539bff := by decide
lemma crc_default_step_30 : crcWordStep 0x8e539bff 0x0 = 0x2da2c24c := by decide
lemma crc_default_step_31 : crcWordStep 0x2da2c24c 0x0 = 0x5db43ef := by decide
lemma crc_default_step_32 : crcWordStep 0x5db43ef 0x0 = 0xe5884568 := by decide
lemma crc_default_step_33 : crcWordStep 0xe5884568 0x0 = 0x83c1bda5 := by decide
lemma crc_default_step_34 : crcWordStep 0x83c1bda5 0x0 = 0x14d5aa5b := by decide
lemma crc_default_step_35 : crcWordStep 0x14d5aa5b 0x0 = 0xd1e58688 := by decide
lemma crc_default_step_36 : crcWordStep 0xd1e58688 0x0 = 0xd3009c0f := by decide
lemma crc_default_step_37 : crcWordStep 0xd3009c0f 0x0 = 0x8568ae48 := by decide
lemma crc_default_step_38 : crcWordStep 0x8568ae48 0x0 = 0x9abab132 := by decide
lemma crc_default_step_39 : crcWordStep 0x9abab132 0x0 = 0x6e6864c4 := by decide
lemma crc_default_step_40 : crcWordStep 0x6e6864c4 0x0 = 0x2b4b62ec := by decide
lemma crc_default_step_41 : crcWordStep 0x2b4b62ec 0x0 = 0x3841a59c := by decide
lemma crc_default_step_42 : crcWordStep 0x3841a59c 0x0 = 0xb6e7d02e := by decide
lemma crc_default_step_43 : crcWordStep 0xb6e7d02e 0x0 = 0xa8a1be8b := by decide
lemma crc_default_step_44 : crcWordStep 0xa8a1be8b 0x0 = 0xfcd93ed7 := by decide
lemma crc_default_step_45 : crcWordStep 0xfcd93ed7 0x0 = 0x374d3ab7 := by decide
lemma crc_default_step_46 : crcWordStep 0x374d3ab7 0x0 = 0xc61a6349 := by decide
lemma crc_default_step_47 : crcWordStep 0xc61a6349 0x0 = 0xa2a5b913 := by decide
lemma crc_default_step_48 : crcWordStep 0xa2a5b913 0x0 = 0x8a919444 := by decide
lemma crc_default_step_49 : crcWordStep 0x8a919444 0x0 = 0xe369ce30 := by decide
lemma crc_default_step_50 : crcWordStep 0xe369ce30 0x0 = 0xc72e05f8 := by decide
lemma crc_default_step_51 : crcWordStep 0xc72e05f8 0x0 = 0x62f9bc2d := by decide
lemma crc_default_step_52 : crcWordStep 0x62f9bc2d 0x0 = 0xe0e32b77 := by decide
lemma crc_default_step_53 : crcWordStep 0xe0e32b77 0x0 = 0x18ee8bd5 := by decide
lemma crc_default_step_54 : crcWordStep 0x18ee8bd5 0x0 = 0xd9f12cb8 := by decide
lemma crc_default_step_55 : crcWordStep 0xd9f12cb8 0x0 = 0x6ca5201a := by decide
lemma crc_default_step_56 : crcWordStep 0x6ca5201a 0x0 = 0x2c24f4d0 := by decide
lemma crc_default_step_57 : crcWordStep 0x2c24f4d0 0x0 = 0xf406c3a3 := by decide
lemma crc_default_step_58 : crcWordStep 0xf406c3a3 0x0 = 0x5f63fadd := by decide
lemma crc_default_step_59 : crcWordStep 0x5f63fadd 0x0 = 0x75ec96b8 := by decide
lemma crc_default_step_60 : crcWordStep 0x75ec96b8 0x0 = 0x288495da := by decide
lemma crc_default_step_61 : crcWordStep 0x288495da 0x0 = 0xc3c611a6 := by decide
lemma crc_default_step_62 : crcWordStep 0xc3c611a6 0x0 = 0xa0cdd707 := by decide

/-- The check value of the compiled-in default payload. -/
lemma compute_check_value_default :
    backup_ram_t.defaultValue.compute_check_value = 0x5f3228f8 := by
  rw [backup_ram_t.compute_check_value, backup_ram_t.defaultValue, regfile_default_words]
  simp only [List.foldl_cons, List.foldl_nil,
    crc_default_step_0, crc_default_step_1, crc_default_step_2, crc_default_step_3, crc_default_step_4, crc_default_step_5,
    crc_default_step_6, crc_default_step_7, crc_default_step_8, crc_default_step_9, crc_default_step_10, crc_default_step_11,
    crc_default_step_12, crc_default_step_13, crc_default_step_14, crc_default_step_15, crc_default_step_16, crc_default_step_17,
    crc_default_step_18, crc_default_step_19, crc_default_step_20, crc_default_step_21, crc_default_step_22, crc_default_step_23,
    crc_default_step_24, crc_default_step_25, crc_default_step_26, crc_default_step_27, crc_default_step_28, crc_default_step_29,
    crc_default_step_30, crc_default_step_31, crc_default_step_32, crc_default_step_33, crc_default_step_34, crc_default_step_35,
    crc_default_step_36, crc_default_step_37, crc_default_step_38, crc_default_step_39, crc_default_step_40, crc_default_step_41,
    crc_default_step_42, crc_default_step_43, crc_default_step_44, crc_default_step_45, crc_default_step_46, crc_default_step_47,
    crc_default_step_48, crc_default_step_49, crc_default_step_50, crc_default_step_51, crc_default_step_52, crc_default_step_53,
    crc_default_step_54, crc_default_step_55, crc_default_step_56, crc_default_step_57, crc_default_step_58, crc_default_step_59,
    crc_default_step_60, crc_default_step_61, crc_default_step_62]
  decide

/-- `compute_check_value` reads only the 63 payload words, never the stored
`check_value`. -/
lemma compute_check_value_check_irrel (d : data_t) (c c' : Nat) :
    backup_ram_t.compute_check_value ⟨d, c⟩ = backup_ram_t.compute_check_value ⟨d, c'⟩ :=
  rfl

/-! ## Bit-level helper lemmas -/

lemma ne_xor_one (n : Nat) : n ≠ n ^^^ 1 := by
  intro h
  have h0 := congrArg (fun m => Nat.testBit m 0) h
  simp only [Nat.testBit_xor] at h0
  cases hb : Nat.testBit n 0 <;> simp [hb] at h0

lemma clkout_extract_of_write (x v : Nat) (hv : v < 2 ^ 16) :
    (((x &&& (0xFFFFFFFF ^^^ 0x000FFFF0)) ||| (v <<< 4)) &&& 0x000FFFF0) >>> 4 = v := by
  have hM : (0x000FFFF0 : Nat) = (2 ^ 20 - 1) ^^^ (2 ^ 4 - 1) := by decide
  have hC : (0xFFFFFFFF : Nat) = 2 ^ 32 - 1 := by decide
  apply Nat.eq_of_testBit_eq
  intro i
  rcases Nat.lt_or_ge i 16 with hi | hi
  · simp only [Nat.testBit_shiftRight, Nat.testBit_and, Nat.testBit_or, Nat.testBit_xor,
      hM, hC, Nat.testBit_two_pow_sub_one, Nat.testBit_shiftLeft]
    have h1 : (4 + i < 20) = True := by simp; omega
    have h2 : (4 + i < 4) = False := by simp
    have h3 : (4 ≤ 4 + i) = True := by simp
    have h4 : 4 + i - 4 = i := by omega
    have h5 : (4 + i < 32) = True := by simp; omega
    simp [h1, h2, h3, h4, h5]
  · have hvi : v.testBit i = false :=
      Nat.testBit_lt_two_pow (lt_of_lt_of_le hv (Nat.pow_le_pow_right (by norm_num) hi))
    simp only [Nat.testBit_shiftRight, Nat.testBit_and, Nat.testBit_or, Nat.testBit_xor,
      hM, hC, Nat.testBit_two_pow_sub_one, Nat.testBit_shiftLeft, hvi]
    have h1 : (4 + i < 20) = False := by simp; omega
    have h4 : 4 + i - 4 = i := by omega
    simp [h1, h4, hvi]

lemma clkout_write_frame (x v j : Nat) (hx : x < 2 ^ 32) (hv : v < 2 ^ 16)
    (hj : j < 4 ∨ 20 ≤ j) :
    ((x &&& (0xFFFFFFFF ^^^ 0x000FFFF0)) ||| (v <<< 4)).testBit j = x.testBit j := by
  have hM : (0x000FFFF0 : Nat) = (2 ^ 20 - 1) ^^^ (2 ^ 4 - 1) := by decide
  have hC : (0xFFFFFFFF : Nat) = 2 ^ 32 - 1 := by decide
  rcases Nat.lt_or_ge j 32 with hj32 | hj32
  · simp only [hM, hC, Nat.testBit_and, Nat.testBit_or, Nat.testBit_xor,
      Nat.testBit_two_pow_sub_one, Nat.testBit_shiftLeft]
    rcases hj with hj | hj
    · have h1 : (j < 20) = True := by simp; omega
      have h2 : (j < 4) = True := by simp; omega
      have h3 : (4 ≤ j) = False := by simp; omega
      have h4 : (j < 32) = True := by simp; omega
      simp [h1, h2, h3, h4]
    · have hvb : v.testBit (j - 4) = false :=
        Nat.testBit_lt_two_pow (lt_of_lt_of_le hv (Nat.pow_le_pow_right (by norm_num) (by omega)))
      have h1 : (j < 20) = False := by simp; omega
      have h2 : (j < 4) = False := by simp; omega
      have h4 : (j < 32) = True := by simp; omega
      simp [h1, h2, h4, hvb]
  · have hxb : x.testBit j = false :=
      Nat.testBit_lt_two_pow (lt_of_lt_of_le hx (Nat.pow_le_pow_right (by norm_num) hj32))
    have hvb : v.testBit (j - 4) = false :=
      Nat.testBit_lt_two_pow (lt_of_lt_of_le hv (Nat.pow_le_pow_right (by norm_num) (by omega)))
    simp only [hM, hC, Nat.testBit_and, Nat.testBit_or, Nat.testBit_xor,
      Nat.testBit_two_pow_sub_one, Nat.testBit_shiftLeft, hxb, hvb]
    have h4 : (j < 32) = False := by simp; omega
    simp [h4]

lemma flag_write_frame (x n j : Nat) (b : Bool) (hx : x < 2 ^ 32)
    (hj : j ≠ n) :
    ((x &&& (0xFFFFFFFF ^^^ (1 <<< n))) ||| ((if b then 1 else 0) <<< n)).testBit j
      = x.testBit j := by
  have hC : (0xFFFFFFFF : Nat) = 2 ^ 32 - 1 := by decide
  have hone : (1 : Nat) <<< n = 2 ^ n := Nat.one_shiftLeft n
  have hpow : Nat.testBit (2 ^ n) j = false := Nat.testBit_two_pow_of_ne hj.symm
  have hset : (((if b then 1 else 0) : Nat) <<< n).testBit j = false := by
    cases b
    · simp
    · simpa [hone] using hpow
  rcases Nat.lt_or_ge j 32 with hj32 | hj32
  · simp only [hC, hone, Nat.testBit_and, Nat.testBit_or, Nat.testBit_xor,
      Nat.testBit_two_pow_sub_one, hpow, hset]
    have h4 : (j < 32) = True := by simp; omega
    simp [h4]
  · have hxb : x.testBit j = false :=
      Nat.testBit_lt_two_pow (lt_of_lt_of_le hx (Nat.pow_le_pow_right (by norm_num) hj32))
    simp only [hC, hone, Nat.testBit_and, Nat.testBit_or, Nat.testBit_xor,
      Nat.testBit_two_pow_sub_one, hpow, hset, hxb]
    simp

lemma backlight_write_frame (x i j : Nat) (hx : x < 2 ^ 32) (hj : 3 ≤ j) :
    ((x &&& (0xFFFFFFFF ^^^ 7)) ||| (i &&& 7)).testBit j = x.testBit j := by
  have hC : (0xFFFFFFFF : Nat) = 2 ^ 32 - 1 := by decide
  have h7 : (7 : Nat) = 2 ^ 3 - 1 := by decide
  have hib : (i &&& 7).testBit j = false := by
    rw [h7]
    simp only [Nat.testBit_and, Nat.testBit_two_pow_sub_one]
    have : (j < 3) = False := by simp; omega
    simp [this]
  rcases Nat.lt_or_ge j 32 with hj32 | hj32
  · simp only [hC, h7, Nat.testBit_and, Nat.testBit_or, Nat.testBit_xor,
      Nat.testBit_two_pow_sub_one, hib]
    have h3 : (j < 3) = False := by simp; omega
    have h4 : (j < 32) = True := by simp; omega
    simp [Nat.testBit_and, h3, h4, h7]
  · have hxb : x.testBit j = false :=
      Nat.testBit_lt_two_pow (lt_of_lt_of_le hx (Nat.pow_le_pow_right (by norm_num) hj32))
    simp only [hC, h7, Nat.testBit_and, Nat.testBit_or, Nat.testBit_xor,
      Nat.testBit_two_pow_sub_one, hib, hxb]
    have h4 : (j < 32) = False := by simp; omega
    simp [h4]
    intro _
    exact hj

lemma clkout_clip_le : ∀ v, clkout_clip v ≤ 60000 := by
  intro v
  simp [clkout_clip, clkout_freq_range_minimum, clkout_freq_range_maximum]

lemma range_t.clip_eq (r : range_t) (v : Int) (h : r.minimum ≤ r.maximum) :
    r.clip v = min r.maximum (max r.minimum v) := by
  simp only [range_t.clip]
  omega

/-! ## State-level helper lemmas -/

/-- A state whose physical and cached records are both default-constructed. -/
def defaultState : State := ⟨backup_ram_t.defaultValue, backup_ram_t.defaultValue⟩

/-- `compute_check_value` ignores the stored check word. -/
lemma compute_update (r : backup_ram_t) (c : Nat) :
    ({ r with check_value := c } : backup_ram_t).compute_check_value
      = r.compute_check_value := rfl

/-- Updating `check_value` to the recomputed checksum makes a record valid. -/
lemma is_valid_after_update (r : backup_ram_t) :
    ({ r with check_value := r.compute_check_value } : backup_ram_t).is_valid = true := by
  have h := compute_update r r.compute_check_value
  simp only [backup_ram_t.is_valid, h]
  exact beq_self_eq_true _

/-- After `persist()` the cache is the old cache with a recomputed check word. -/
lemma persist_cached_eq (s : State) :
    (cache.persist s).cached_backup_ram
      = { s.cached_backup_ram with
          check_value := s.cached_backup_ram.compute_check_value } := rfl

/-- After `persist()` the physical record equals the cache. -/
lemma persist_phys_eq (s : State) :
    (cache.persist s).backup_ram = (cache.persist s).cached_backup_ram := rfl

/-- `init()` on a valid physical record copies it into the cache. -/
lemma init_valid (s : State) (h : s.backup_ram.is_valid = true) :
    cache.init s = { s with cached_backup_ram := s.backup_ram } := by
  simp only [cache.init, h, if_true]

/-- `init()` on an invalid physical record loads defaults into the cache. -/
lemma init_invalid (s : State) (h : s.backup_ram.is_valid = false) :
    cache.init s = { s with cached_backup_ram := backup_ram_t.defaultValue } := by
  simp only [cache.init, h, Bool.false_eq_true, if_false, cache.defaults]

/-- A default-constructed record is not valid (its stored check word is `0`,
not the checksum of the default payload). -/
lemma default_is_valid_false : backup_ram_t.defaultValue.is_valid = false := by
  simp only [backup_ram_t.is_valid, compute_check_value_default]
  decide

/-- C1 (counterexample): a freshly default-constructed backing record does
not pass the validity check, and `is_valid()` on the cache immediately after
`defaults()` (before any `persist()`) is `false`, not `true`. -/
theorem claim_C1_counterexample :
    backup_ram_t.defaultValue.is_valid = false ∧
    (cache.defaults defaultState).cached_backup_ram.is_valid = false :=
  ⟨default_is_valid_false, default_is_valid_false⟩

/-- C1 (amended): the default constructor stores `0` in `check_value` without
computing the checksum of the default payload (which is nonzero), so
`is_valid()` on the cache immediately after `defaults()` and before any
`persist()` returns `false`; validity is only established by `persist()`. -/
theorem claim_C1_amended :
    backup_ram_t.defaultValue.check_value = 0 ∧
    backup_ram_t.defaultValue.compute_check_value ≠ 0 ∧
    (∀ s : State, (cache.defaults s).cached_backup_ram.is_valid = false) ∧
    (∀ s : State, (cache.persist (cache.defaults s)).cached_backup_ram.is_valid = true) := by
  refine ⟨rfl, ?_, fun s => default_is_valid_false, fun s => ?_⟩
  · rw [compute_check_value_default]
    decide
  · rw [persist_cached_eq]
    exact is_valid_after_update _

/-- C10: `persist()` first overwrites the cache's own trailing check word with
the CRC recomputed over the cache's 63 payload words, then copies the whole
record to the physical location; immediately afterwards the cache itself is
valid and its payload (all 63 payload words) is unchanged. -/
theorem claim_C10 (s : State) :
    (cache.persist s).cached_backup_ram.check_value
        = s.cached_backup_ram.compute_check_value ∧
    (cache.persist s).cached_backup_ram.data = s.cached_backup_ram.data ∧
    regfileWords (cache.persist s).cached_backup_ram.data
        = regfileWords s.cached_backup_ram.data ∧
    (cache.persist s).backup_ram = (cache.persist s).cached_backup_ram ∧
    (cache.persist s).cached_backup_ram.is_valid = true := by
  refine ⟨?_, ?_, ?_, persist_phys_eq s, ?_⟩
  · rw [persist_cached_eq]
  · rw [persist_cached_eq]
  · rw [persist_cached_eq]
  · rw [persist_cached_eq]
    exact is_valid_after_update _

/-- C4: for a cache state with no out-of-range field, `persist()` followed by
a fresh `init()` reconstructs a cache identical to the persisted record. -/
theorem claim_C4 (s : State) (h : s.cached_backup_ram.data.allInRange) :
    (cache.init (cache.persist s)).cached_backup_ram
      = (cache.persist s).cached_backup_ram := by
  have hv : (cache.persist s).backup_ram.is_valid = true := by
    rw [persist_phys_eq, persist_cached_eq]
    exact is_valid_after_update _
  rw [init_valid _ hv]
  exact persist_phys_eq s

/-- C4 witness: the default cache state has no out-of-range field and the
round trip reproduces the persisted record. -/
theorem claim_C4_witness :
    defaultState.cached_backup_ram.data.allInRange ∧
    (cache.init (cache.persist defaultState)).cached_backup_ram
      = (cache.persist defaultState).cached_backup_ram :=
  ⟨by decide, claim_C4 defaultState (by decide)⟩

/-- C3: `init()` adopts the physical record verbatim when its stored check
word equals the recomputed CRC, and otherwise overwrites the cache with the
compiled-in default record; in particular, corrupting only the check word of
a valid physical record (payload untouched) makes `init()` load full
defaults, with the modem baud rate reading back as its default 1200. -/
theorem claim_C3 (s : State) (p c0 : backup_ram_t) :
    (s.backup_ram.is_valid = true →
      cache.init s = { s with cached_backup_ram := s.backup_ram }) ∧
    (s.backup_ram.is_valid = false →
      cache.init s = { s with cached_backup_ram := backup_ram_t.defaultValue }) ∧
    (p.is_valid = true →
      (cache.init ⟨⟨p.data, p.check_value ^^^ 1⟩, c0⟩).cached_backup_ram
          = backup_ram_t.defaultValue ∧
      (modem_baudrate
          (cache.init ⟨⟨p.data, p.check_value ^^^ 1⟩, c0⟩).cached_backup_ram.data).1
        = 1200) := by
  refine ⟨init_valid s, init_invalid s, fun hp => ?_⟩
  have hK : p.compute_check_value = p.check_value := by
    simpa only [backup_ram_t.is_valid, beq_iff_eq] using hp
  have hcorr : (⟨⟨p.data, p.check_value ^^^ 1⟩, c0⟩ : State).backup_ram.is_valid
      = false := by
    simp only [backup_ram_t.is_valid]
    rw [compute_update p (p.check_value ^^^ 1), hK]
    exact beq_eq_false_iff_ne.2 (ne_xor_one p.check_value)
  have hinit := init_invalid _ hcorr
  rw [hinit]
  refine ⟨rfl, ?_⟩
  show (modem_baudrate backup_ram_t.defaultValue.data).1 = 1200
  decide

/-- C3 witness: the concrete scenario at the default record. -/
theorem claim_C3_witness :
    cache.init defaultState
        = { defaultState with cached_backup_ram := backup_ram_t.defaultValue } ∧
    (cache.init ⟨⟨(cache.persist defaultState).backup_ram.data,
        (cache.persist defaultState).backup_ram.check_value ^^^ 1⟩,
        backup_ram_t.defaultValue⟩).cached_backup_ram
      = backup_ram_t.defaultValue := by
  have h := claim_C3 defaultState (cache.persist defaultState).backup_ram
    backup_ram_t.defaultValue
  have hv : (cache.persist defaultState).backup_ram.is_valid = true := by
    rw [persist_phys_eq, persist_cached_eq]
    exact is_valid_after_update _
  exact ⟨h.2.1 default_is_valid_false, (h.2.2 hv).1⟩

/-- C9: `touch_calibration()` compares the stored magic word with
`0x074af82f`; on mismatch it installs the default calibration (which also
rewrites the magic) and returns it, on match it returns the stored blob and
leaves the cache unchanged; `set_touch_calibration(v)` stores `v`,
unconditionally sets the magic, and a read immediately after any set returns
`v` without repair. -/
theorem claim_C9 (d : data_t) (v : Calibration) :
    (d.touch_calibration_magic ≠ 0x074af82f →
      touch_calibration d
        = (Calibration.defaultValue,
           set_touch_calibration Calibration.defaultValue d)) ∧
    (d.touch_calibration_magic = 0x074af82f →
      touch_calibration d = (d.touch_calibration, d)) ∧
    (set_touch_calibration v d).touch_calibration = v ∧
    (set_touch_calibration v d).touch_calibration_magic = 0x074af82f ∧
    touch_calibration (set_touch_calibration v d) = (v, set_touch_calibration v d) := by
  refine ⟨fun h => ?_, fun h => ?_, rfl, rfl, ?_⟩
  · simp [touch_calibration, set_touch_calibration, TOUCH_CALIBRATION_MAGIC, h]
  · simp [touch_calibration, TOUCH_CALIBRATION_MAGIC, h]
  · simp [touch_calibration, set_touch_calibration, TOUCH_CALIBRATION_MAGIC]

/-- C9 witness: the mismatch branch at magic `0` and the match branch at the
default record. -/
theorem claim_C9_witness :
    touch_calibration { data_t.defaultValue with touch_calibration_magic := 0 }
      = (Calibration.defaultValue,
         set_touch_calibration Calibration.defaultValue
           { data_t.defaultValue with touch_calibration_magic := 0 }) ∧
    touch_calibration data_t.defaultValue
      = (data_t.defaultValue.touch_calibration, data_t.defaultValue) := by
  have h1 := claim_C9 { data_t.defaultValue with touch_calibration_magic := 0 }
    Calibration.defaultValue
  have h2 := claim_C9 data_t.defaultValue Calibration.defaultValue
  exact ⟨h1.1 (by decide), h2.2.1 (by decide)⟩

/-! ## C8 machinery: spec-side checksum definition -/

/-- Modelled from the spec (§4.1), written from the spec's words for
comparison with the source-derived `compute_check_value`: each 32-bit register
word contributes its bytes low-to-high. -/
def wordBytesLE (w : Nat) : List Nat :=
  [w &&& 0xff, (w >>> 8) &&& 0xff, (w >>> 16) &&& 0xff, (w >>> 24) &&& 0xff]

/-- Modelled from the spec (§4.1): the checksum as a pure function of the
payload words — the CRC over their little-endian byte stream. -/
def checksumSpec (words : List Nat) : Nat :=
  crcBytes (words.map wordBytesLE).flatten

/-- Folding the CRC word steps equals folding the byte steps over the
flattened little-endian byte stream. -/
lemma foldl_words_eq (ws : List Nat) (a : Nat) :
    ws.foldl crcWordStep a = ((ws.map wordBytesLE).flatten).foldl crcProcessByte a := by
  induction ws generalizing a with
  | nil => rfl
  | cons w ws ih =>
      simp only [List.map_cons, List.flatten_cons, List.foldl_cons, List.foldl_append]
      rw [← ih]
      rfl

/-- C8: `compute_check_value` is a deterministic pure function of the 63
payload words — the 32-bit CRC (polynomial 0x04C11DB7, initial register
0xFFFFFFFF, final XOR 0xFFFFFFFF) of the words' bytes taken low-to-high —
and `is_valid()` holds iff this recomputed CRC equals the stored check word. -/
theorem claim_C8 (r r' : backup_ram_t) :
    (regfileWords r.data = regfileWords r'.data →
      r.compute_check_value = r'.compute_check_value) ∧
    r.compute_check_value = checksumSpec (regfileWords r.data) ∧
    (regfileWords r.data).length = 63 ∧
    (r.is_valid = true ↔ checksumSpec (regfileWords r.data) = r.check_value) := by
  have h2 : r.compute_check_value = checksumSpec (regfileWords r.data) := by
    simp only [backup_ram_t.compute_check_value, checksumSpec, crcBytes, foldl_words_eq]
  refine ⟨fun h => ?_, h2, ?_, ?_⟩
  · simp only [backup_ram_t.compute_check_value, h]
  · simp [regfileWords]
  · rw [backup_ram_t.is_valid, ← h2, beq_iff_eq]

/-- C8 witness: two records sharing a payload but differing in the stored
check word have the same computed check value. -/
theorem claim_C8_witness :
    (⟨data_t.defaultValue, 0⟩ : backup_ram_t).compute_check_value
      = (⟨data_t.defaultValue, 5⟩ : backup_ram_t).compute_check_value :=
  (claim_C8 ⟨data_t.defaultValue, 0⟩ ⟨data_t.defaultValue, 5⟩).1 rfl

/-- C7: each single-flag setter on `ui_config` (bits 20–31) and each masked
multi-bit sub-field write (backlight timer, bits 0–2; CLKOUT frequency,
bits 4–19) changes only its own bit range of `ui_config` and leaves every
other bit of `ui_config`, and every other field of the cache, unchanged. -/
theorem claim_C7 (d : data_t) (b : Bool) (i f j : Nat)
    (hui : d.ui_config < 2 ^ 32) :
    ((j ≠ 20 → (set_gui_return_icon b d).ui_config.testBit j = d.ui_config.testBit j) ∧
      set_gui_return_icon b d = { d with ui_config := (set_gui_return_icon b d).ui_config }) ∧
    ((j ≠ 21 → (set_load_app_settings b d).ui_config.testBit j = d.ui_config.testBit j) ∧
      set_load_app_settings b d = { d with ui_config := (set_load_app_settings b d).ui_config }) ∧
    ((j ≠ 22 → (set_save_app_settings b d).ui_config.testBit j = d.ui_config.testBit j) ∧
      set_save_app_settings b d = { d with ui_config := (set_save_app_settings b d).ui_config }) ∧
    ((j ≠ 23 → (set_show_bigger_qr_code b d).ui_config.testBit j = d.ui_config.testBit j) ∧
      set_show_bigger_qr_code b d = { d with ui_config := (set_show_bigger_qr_code b d).ui_config }) ∧
    ((j ≠ 24 → (set_disable_touchscreen b d).ui_config.testBit j = d.ui_config.testBit j) ∧
      set_disable_touchscreen b d = { d with ui_config := (set_disable_touchscreen b d).ui_config }) ∧
    ((j ≠ 25 → (set_clock_hidden b d).ui_config.testBit j = d.ui_config.testBit j) ∧
      set_clock_hidden b d = { d with ui_config := (set_clock_hidden b d).ui_config }) ∧
    ((j ≠ 26 → (set_clock_with_date b d).ui_config.testBit j = d.ui_config.testBit j) ∧
      set_clock_with_date b d = { d with ui_config := (set_clock_with_date b d).ui_config }) ∧
    ((j ≠ 27 → (set_clkout_enabled b d).ui_config.testBit j = d.ui_config.testBit j) ∧
      set_clkout_enabled b d = { d with ui_config := (set_clkout_enabled b d).ui_config }) ∧
    ((j ≠ 28 → (set_config_speaker b d).ui_config.testBit j = d.ui_config.testBit j) ∧
      set_config_speaker b d = { d with ui_config := (set_config_speaker b d).ui_config }) ∧
    ((j ≠ 29 → (set_stealth_mode b d).ui_config.testBit j = d.ui_config.testBit j) ∧
      set_stealth_mode b d = { d with ui_config := (set_stealth_mode b d).ui_config }) ∧
    ((j ≠ 30 → (set_config_login b d).ui_config.testBit j = d.ui_config.testBit j) ∧
      set_config_login b d = { d with ui_config := (set_config_login b d).ui_config }) ∧
    ((j ≠ 31 → (set_config_splash b d).ui_config.testBit j = d.ui_config.testBit j) ∧
      set_config_splash b d = { d with ui_config := (set_config_splash b d).ui_config }) ∧
    ((3 ≤ j → (set_config_backlight_timer i d).ui_config.testBit j = d.ui_config.testBit j) ∧
      set_config_backlight_timer i d
        = { d with ui_config := (set_config_backlight_timer i d).ui_config }) ∧
    ((j < 4 ∨ 20 ≤ j → (set_clkout_freq f d).ui_config.testBit j = d.ui_config.testBit j) ∧
      set_clkout_freq f d = { d with ui_config := (set_clkout_freq f d).ui_config }) := by
  have hcl : clkout_clip f < 2 ^ 16 := by
    have := clkout_clip_le f
    omega
  exact ⟨⟨fun hj => flag_write_frame d.ui_config 20 j b hui hj, rfl⟩,
    ⟨fun hj => flag_write_frame d.ui_config 21 j b hui hj, rfl⟩,
    ⟨fun hj => flag_write_frame d.ui_config 22 j b hui hj, rfl⟩,
    ⟨fun hj => flag_write_frame d.ui_config 23 j b hui hj, rfl⟩,
    ⟨fun hj => flag_write_frame d.ui_config 24 j b hui hj, rfl⟩,
    ⟨fun hj => flag_write_frame d.ui_config 25 j b hui hj, rfl⟩,
    ⟨fun hj => flag_write_frame d.ui_config 26 j b hui hj, rfl⟩,
    ⟨fun hj => flag_write_frame d.ui_config 27 j b hui hj, rfl⟩,
    ⟨fun hj => flag_write_frame d.ui_config 28 j b hui hj, rfl⟩,
    ⟨fun hj => flag_write_frame d.ui_config 29 j b hui hj, rfl⟩,
    ⟨fun hj => flag_write_frame d.ui_config 30 j b hui hj, rfl⟩,
    ⟨fun hj => flag_write_frame d.ui_config 31 j b hui hj, rfl⟩,
    ⟨fun hj => backlight_write_frame d.ui_config i j hui hj, rfl⟩,
    ⟨fun hj => clkout_write_frame d.ui_config (clkout_clip f) j hui hcl hj, rfl⟩⟩

/-- C7 witness: concrete frame checks on the default record. -/
theorem claim_C7_witness :
    (set_gui_return_icon true data_t.defaultValue).ui_config.testBit 0
        = data_t.defaultValue.ui_config.testBit 0 ∧
    (set_config_backlight_timer 3 data_t.defaultValue).ui_config.testBit 20
        = data_t.defaultValue.ui_config.testBit 20 ∧
    (set_clkout_freq 5000 data_t.defaultValue).ui_config.testBit 31
        = data_t.defaultValue.ui_config.testBit 31 := by
  have h0 := claim_C7 data_t.defaultValue true 3 5000 0 (by decide)
  have h20 := claim_C7 data_t.defaultValue true 3 5000 20 (by decide)
  have h31 := claim_C7 data_t.defaultValue true 3 5000 31 (by decide)
  refine ⟨h0.1.1 (by decide), ?_, ?_⟩
  · exact h20.2.2.2.2.2.2.2.2.2.2.2.2.1.1 (by decide)
  · exact h31.2.2.2.2.2.2.2.2.2.2.2.2.2.1 (by omega)

/-! ## Range-policy helper lemmas -/

lemma reset_outside_eq (rng : range_t) (x reset : Int)
    (hc : x < rng.minimum ∨ x > rng.maximum) :
    rng.reset_if_outside x reset = reset := by
  rw [range_t.reset_if_outside, if_pos hc]

lemma reset_inside_eq (rng : range_t) (x reset : Int)
    (h1 : rng.minimum ≤ x) (h2 : x ≤ rng.maximum) :
    rng.reset_if_outside x reset = x := by
  rw [range_t.reset_if_outside, if_neg (by omega)]

lemma clip_inside_eq (rng : range_t) (x : Int)
    (h1 : rng.minimum ≤ x) (h2 : x ≤ rng.maximum) :
    rng.clip x = x := by
  simp only [range_t.clip]
  omega

lemma clip_mem (rng : range_t) (x : Int) (h : rng.minimum ≤ rng.maximum) :
    rng.minimum ≤ rng.clip x ∧ rng.clip x ≤ rng.maximum := by
  simp only [range_t.clip]
  omega


/-- C2 (counterexample): `set_clkout_freq(5)` followed by `clkout_freq()`
returns 10 — the clamped minimum — not the reset value 10000; likewise the
correction setter clamps `lo-1` to `lo` instead of resetting. -/
theorem claim_C2_counterexample :
    (clkout_freq (set_clkout_freq 5 data_t.defaultValue)).1 = 10 ∧
    (clkout_freq (set_clkout_freq 5 data_t.defaultValue)).1 ≠ 10000 ∧
    (correction_ppb (set_correction_ppb (-99001) data_t.defaultValue)).1 = -99000 ∧
    (correction_ppb (set_correction_ppb (-99001) data_t.defaultValue)).1 ≠ 0 := by
  decide

/-- C2 (amended): for every ranged scalar field with bounds `[lo, hi]`,
calling the setter with `lo-1` stores the clamp `lo`, and the getter then
yields `lo` on that read and on a second consecutive read — not the reset
value, because every setter clamps on write; in particular
`set_clkout_freq(5)` followed by `clkout_freq()` returns 10. -/
theorem claim_C2_amended (d : data_t) (tr : range_t)
    (htr : tr.minimum ≤ tr.maximum) :
    (tuned_frequency tr (set_tuned_frequency tr (tr.minimum - 1) d)).1 = tr.minimum ∧
    (tuned_frequency tr
        (tuned_frequency tr (set_tuned_frequency tr (tr.minimum - 1) d)).2).1
      = tr.minimum ∧
    (correction_ppb (set_correction_ppb (-99001) d)).1 = -99000 ∧
    (correction_ppb (correction_ppb (set_correction_ppb (-99001) d)).2).1 = -99000 ∧
    (tone_mix (set_tone_mix 9 d)).1 = 10 ∧
    (tone_mix (tone_mix (set_tone_mix 9 d)).2).1 = 10 ∧
    (afsk_mark_freq (set_afsk_mark 0 d)).1 = 1 ∧
    (afsk_mark_freq (afsk_mark_freq (set_afsk_mark 0 d)).2).1 = 1 ∧
    (afsk_space_freq (set_afsk_space 0 d)).1 = 1 ∧
    (afsk_space_freq (afsk_space_freq (set_afsk_space 0 d)).2).1 = 1 ∧
    (modem_baudrate (set_modem_baudrate 49 d)).1 = 50 ∧
    (modem_baudrate (modem_baudrate (set_modem_baudrate 49 d)).2).1 = 50 ∧
    (modem_repeat (set_modem_repeat 0 d)).1 = 1 ∧
    (modem_repeat (modem_repeat (set_modem_repeat 0 d)).2).1 = 1 ∧
    (clkout_freq (set_clkout_freq 5 d)).1 = 10 ∧
    (clkout_freq (clkout_freq (set_clkout_freq 5 d)).2).1 = 10 := by
  have htclip : tr.clip (tr.minimum - 1) = tr.minimum := by
    simp only [range_t.clip]
    omega
  have htres : tr.reset_if_outside tr.minimum tuned_frequency_reset_value = tr.minimum :=
    reset_inside_eq _ _ _ le_rfl htr
  have hpc : ppb_range.clip (-99001) = -99000 := by decide
  have hpr : ppb_range.reset_if_outside (-99000) ppb_reset_value = -99000 := by decide
  have htc : tone_mix_range.clip 9 = 10 := by decide
  have htr2 : tone_mix_range.reset_if_outside 10 tone_mix_reset_value = 10 := by decide
  have hmc : afsk_freq_range.clip 0 = 1 := by decide
  have hmr : afsk_freq_range.reset_if_outside 1 afsk_mark_reset_value = 1 := by decide
  have hsr : afsk_freq_range.reset_if_outside 1 afsk_space_reset_value = 1 := by decide
  have hbc : modem_baudrate_range.clip 49 = 50 := by decide
  have hbr : modem_baudrate_range.reset_if_outside 50 modem_baudrate_reset_value = 50 := by decide
  have hrc : modem_repeat_range.clip (toInt32 0) = 1 := by decide
  have hrr : modem_repeat_range.reset_if_outside 1 modem_repeat_reset_value = 1 := by decide
  have h5 : clkout_clip 5 = 10 := by decide
  have hx := clkout_extract_of_write d.ui_config 10 (by norm_num)
  refine ⟨?_, ?_, ?_, ?_, ?_, ?_, ?_, ?_, ?_, ?_, ?_, ?_, ?_, ?_, ?_, ?_⟩
  · simp only [tuned_frequency, set_tuned_frequency, htclip, htres]
  · simp only [tuned_frequency, set_tuned_frequency, htclip, htres]
  · simp only [correction_ppb, set_correction_ppb, hpc, hpr]
  · simp only [correction_ppb, set_correction_ppb, hpc, hpr]
  · simp only [tone_mix, set_tone_mix, htc, htr2]
  · simp only [tone_mix, set_tone_mix, htc, htr2]
  · simp only [afsk_mark_freq, set_afsk_mark, hmc, hmr]
  · simp only [afsk_mark_freq, set_afsk_mark, hmc, hmr]
  · simp only [afsk_space_freq, set_afsk_space, hmc, hsr]
  · simp only [afsk_space_freq, set_afsk_space, hmc, hsr]
  · simp only [modem_baudrate, set_modem_baudrate, hbc, hbr]
  · simp only [modem_baudrate, set_modem_baudrate, hbc, hbr]
  · simp only [modem_repeat, set_modem_repeat, hrc, hrr]
    decide
  · simp only [modem_repeat, set_modem_repeat, hrc, hrr]
    decide
  · simp only [clkout_freq, set_clkout_freq, h5]
    norm_num [hx, clkout_freq_range_minimum, clkout_freq_range_maximum]
  · simp only [clkout_freq, set_clkout_freq, h5]
    norm_num [hx, clkout_freq_range_minimum, clkout_freq_range_maximum]

/-- C2 amended witness: an instantiation at the default record with a
concrete external tuning range. -/
theorem claim_C2_amended_witness :
    (correction_ppb (set_correction_ppb (-99001) data_t.defaultValue)).1 = -99000 ∧
    (tuned_frequency ⟨0, 7200000000⟩
        (set_tuned_frequency ⟨0, 7200000000⟩ (-1) data_t.defaultValue)).1 = 0 := by
  have h := claim_C2_amended data_t.defaultValue ⟨0, 7200000000⟩ (by norm_num)
  exact ⟨h.2.2.1, h.1⟩

/-- C6 (counterexample): `set_modem_repeat` does not store
`min(hi, max(lo, v))` of its `uint32_t` argument for every input — at
`u = 2^31` the argument is reinterpreted as the negative `int32_t` `-2^31`
before clipping, so the code stores 1 while the claimed clamp formula gives
99. -/
theorem claim_C6_counterexample :
    (set_modem_repeat 2147483648 data_t.defaultValue).modem_repeat = 1 ∧
    min 99 (max 1 ((2147483648 : Nat) : Int)) = 99 ∧
    (set_modem_repeat 2147483648 data_t.defaultValue).modem_repeat
      ≠ min 99 (max 1 ((2147483648 : Nat) : Int)) := by
  decide

/-- C6 (amended): every ranged scalar field setter stores a saturating clamp
and never rejects the write; for the `Int`-typed setters the stored value is
`min(hi, max(lo, v))` for every argument, and for `set_modem_repeat` — whose
`uint32_t` argument passes through an `int32_t` conversion before the clamp —
the stored value is `min(99, max(1, u))` when `u < 2^31` and 1 when
`2^31 ≤ u < 2^32` (the argument wraps to a negative value and clamps to the
lower bound); in particular `set_correction_ppb(500000)` stores 99000 and a
subsequent `correction_ppb()` returns exactly 99000, not the reset value 0. -/
theorem claim_C6_amended (d : data_t) (tr : range_t) (v : Int) (u w : Nat)
    (htr : tr.minimum ≤ tr.maximum) (hu : u < 2 ^ 32) :
    (set_tuned_frequency tr v d).tuned_frequency = min tr.maximum (max tr.minimum v) ∧
    (set_correction_ppb v d).correction_ppb = min 99000 (max (-99000) v) ∧
    (set_tone_mix v d).tone_mix = min 99 (max 10 v) ∧
    (set_afsk_mark v d).afsk_mark_freq = min 4000 (max 1 v) ∧
    (set_afsk_space v d).afsk_space_freq = min 4000 (max 1 v) ∧
    (set_modem_baudrate v d).modem_baudrate = min 9600 (max 50 v) ∧
    (set_modem_repeat u d).modem_repeat
      = (if u < 2 ^ 31 then min 99 (max 1 (u : Int)) else 1) ∧
    ((set_clkout_freq w d).ui_config &&& 0x000FFFF0) >>> 4 = min 60000 (max 10 w) ∧
    (set_correction_ppb 500000 d).correction_ppb = 99000 ∧
    correction_ppb (set_correction_ppb 500000 d) = (99000, set_correction_ppb 500000 d) := by
  have hmod : u % 2 ^ 32 = u := Nat.mod_eq_of_lt hu
  have hcl : clkout_clip w < 2 ^ 16 := by
    have := clkout_clip_le w
    omega
  have hex := clkout_extract_of_write d.ui_config (clkout_clip w) hcl
  have hc5 : ppb_range.clip 500000 = 99000 := by decide
  have hr5 : ppb_range.reset_if_outside 99000 ppb_reset_value = 99000 := by decide
  refine ⟨?_, ?_, ?_, ?_, ?_, ?_, ?_, ?_, ?_, ?_⟩
  · simp only [set_tuned_frequency, range_t.clip]
    omega
  · simp only [set_correction_ppb, range_t.clip, ppb_range]
    omega
  · simp only [set_tone_mix, range_t.clip, tone_mix_range]
    omega
  · simp only [set_afsk_mark, range_t.clip, afsk_freq_range]
    omega
  · simp only [set_afsk_space, range_t.clip, afsk_freq_range]
    omega
  · simp only [set_modem_baudrate, range_t.clip, modem_baudrate_range]
    omega
  · by_cases hu31 : u < 2 ^ 31
    · have ht : toInt32 u = (u : Int) := by
        unfold toInt32
        rw [hmod, if_pos hu31]
      rw [if_pos hu31]
      simp only [set_modem_repeat, ht, range_t.clip, modem_repeat_range]
      omega
    · have ht : toInt32 u = (u : Int) - 2 ^ 32 := by
        unfold toInt32
        rw [hmod, if_neg hu31]
      rw [if_neg hu31]
      simp only [set_modem_repeat, ht, range_t.clip, modem_repeat_range]
      omega
  · simp only [set_clkout_freq]
    rw [hex]
    simp only [clkout_clip, clkout_freq_range_minimum, clkout_freq_range_maximum]
    omega
  · simp only [set_correction_ppb, hc5]
  · simp only [correction_ppb, set_correction_ppb, hc5, hr5]

/-- C6 witness: concrete clamps on both sides of the `int32_t` wrap,
including the 500000 → 99000 scenario. -/
theorem claim_C6_witness :
    (set_tuned_frequency ⟨0, 7200000000⟩ (-5) data_t.defaultValue).tuned_frequency = 0 ∧
    (set_modem_repeat 200 data_t.defaultValue).modem_repeat = 99 ∧
    (set_modem_repeat 2147483648 data_t.defaultValue).modem_repeat = 1 ∧
    (set_correction_ppb 500000 data_t.defaultValue).correction_ppb = 99000 := by
  have h := claim_C6_amended data_t.defaultValue ⟨0, 7200000000⟩ (-5) 200 123
    (by norm_num) (by norm_num)
  have h2 := claim_C6_amended data_t.defaultValue ⟨0, 7200000000⟩ (-5) 2147483648 123
    (by norm_num) (by norm_num)
  refine ⟨?_, ?_, ?_, h.2.2.2.2.2.2.2.2.1⟩
  · rw [h.1]
    decide
  · rw [h.2.2.2.2.2.2.1]
    decide
  · rw [h2.2.2.2.2.2.2.1]
    decide

/-- C5: for every ranged scalar field getter — if the stored value lies
outside `[lo, hi]` the getter first overwrites it in the cache with the reset
value `r` and returns `r`; if it lies inside, the getter returns the stored
value and leaves the cache unmodified; and setting any in-range value then
reading immediately returns that exact value. -/
theorem claim_C5 (d : data_t) (tr : range_t) (v : Int) (u w : Nat) :
    ((d.tuned_frequency < tr.minimum ∨ d.tuned_frequency > tr.maximum →
        tuned_frequency tr d = (100000000, { d with tuned_frequency := 100000000 })) ∧
      (tr.minimum ≤ d.tuned_frequency → d.tuned_frequency ≤ tr.maximum →
        tuned_frequency tr d = (d.tuned_frequency, d)) ∧
      (tr.minimum ≤ v → v ≤ tr.maximum →
        tuned_frequency tr (set_tuned_frequency tr v d)
          = (v, set_tuned_frequency tr v d))) ∧
    ((d.correction_ppb < -99000 ∨ d.correction_ppb > 99000 →
        correction_ppb d = (0, { d with correction_ppb := 0 })) ∧
      (-99000 ≤ d.correction_ppb → d.correction_ppb ≤ 99000 →
        correction_ppb d = (d.correction_ppb, d)) ∧
      (-99000 ≤ v → v ≤ 99000 →
        correction_ppb (set_correction_ppb v d) = (v, set_correction_ppb v d))) ∧
    ((d.tone_mix < 10 ∨ d.tone_mix > 99 →
        tone_mix d = (20, { d with tone_mix := 20 })) ∧
      (10 ≤ d.tone_mix → d.tone_mix ≤ 99 → tone_mix d = (d.tone_mix, d)) ∧
      (10 ≤ v → v ≤ 99 →
        tone_mix (set_tone_mix v d) = (v, set_tone_mix v d))) ∧
    ((d.afsk_mark_freq < 1 ∨ d.afsk_mark_freq > 4000 →
        afsk_mark_freq d = (1200, { d with afsk_mark_freq := 1200 })) ∧
      (1 ≤ d.afsk_mark_freq → d.afsk_mark_freq ≤ 4000 →
        afsk_mark_freq d = (d.afsk_mark_freq, d)) ∧
      (1 ≤ v → v ≤ 4000 →
        afsk_mark_freq (set_afsk_mark v d) = (v, set_afsk_mark v d))) ∧
    ((d.afsk_space_freq < 1 ∨ d.afsk_space_freq > 4000 →
        afsk_space_freq d = (2200, { d with afsk_space_freq := 2200 })) ∧
      (1 ≤ d.afsk_space_freq → d.afsk_space_freq ≤ 4000 →
        afsk_space_freq d = (d.afsk_space_freq, d)) ∧
      (1 ≤ v → v ≤ 4000 →
        afsk_space_freq (set_afsk_space v d) = (v, set_afsk_space v d))) ∧
    ((d.modem_baudrate < 50 ∨ d.modem_baudrate > 9600 →
        modem_baudrate d = (1200, { d with modem_baudrate := 1200 })) ∧
      (50 ≤ d.modem_baudrate → d.modem_baudrate ≤ 9600 →
        modem_baudrate d = (d.modem_baudrate, d)) ∧
      (50 ≤ v → v ≤ 9600 →
        modem_baudrate (set_modem_baudrate v d) = (v, set_modem_baudrate v d))) ∧
    ((d.modem_repeat < 1 ∨ d.modem_repeat > 99 →
        modem_repeat d = (5, { d with modem_repeat := 5 })) ∧
      (1 ≤ d.modem_repeat → d.modem_repeat ≤ 99 →
        modem_repeat d = (d.modem_repeat.toNat, d)) ∧
      (1 ≤ u → u ≤ 99 →
        modem_repeat (set_modem_repeat u d) = (u, set_modem_repeat u d))) ∧
    (((d.ui_config &&& 0x000FFFF0) >>> 4 < 10 ∨
        (d.ui_config &&& 0x000FFFF0) >>> 4 > 60000 →
        (clkout_freq d).1 = 10000 ∧
        ((clkout_freq d).2.ui_config &&& 0x000FFFF0) >>> 4 = 10000 ∧
        clkout_freq ((clkout_freq d).2) = (10000, (clkout_freq d).2)) ∧
      (10 ≤ (d.ui_config &&& 0x000FFFF0) >>> 4 →
        (d.ui_config &&& 0x000FFFF0) >>> 4 ≤ 60000 →
        clkout_freq d = ((d.ui_config &&& 0x000FFFF0) >>> 4, d)) ∧
      (10 ≤ w → w ≤ 60000 →
        clkout_freq (set_clkout_freq w d) = (w, set_clkout_freq w d))) := by
  refine ⟨⟨fun hc => ?_, fun h1 h2 => ?_, fun h1 h2 => ?_⟩,
    ⟨fun hc => ?_, fun h1 h2 => ?_, fun h1 h2 => ?_⟩,
    ⟨fun hc => ?_, fun h1 h2 => ?_, fun h1 h2 => ?_⟩,
    ⟨fun hc => ?_, fun h1 h2 => ?_, fun h1 h2 => ?_⟩,
    ⟨fun hc => ?_, fun h1 h2 => ?_, fun h1 h2 => ?_⟩,
    ⟨fun hc => ?_, fun h1 h2 => ?_, fun h1 h2 => ?_⟩,
    ⟨fun hc => ?_, fun h1 h2 => ?_, fun h1 h2 => ?_⟩,
    ⟨fun hc => ?_, fun h1 h2 => ?_, fun h1 h2 => ?_⟩⟩
  · simp only [tuned_frequency]
    rw [reset_outside_eq tr d.tuned_frequency tuned_frequency_reset_value hc]
    rfl
  · simp only [tuned_frequency]
    rw [reset_inside_eq tr d.tuned_frequency tuned_frequency_reset_value h1 h2]
  · simp only [tuned_frequency, set_tuned_frequency]
    rw [clip_inside_eq tr v h1 h2,
      reset_inside_eq tr v tuned_frequency_reset_value h1 h2]
  · simp only [correction_ppb]
    rw [reset_outside_eq ppb_range d.correction_ppb ppb_reset_value hc]
    rfl
  · simp only [correction_ppb]
    rw [reset_inside_eq ppb_range d.correction_ppb ppb_reset_value h1 h2]
  · simp only [correction_ppb, set_correction_ppb]
    rw [clip_inside_eq ppb_range v h1 h2,
      reset_inside_eq ppb_range v ppb_reset_value h1 h2]
  · simp only [tone_mix]
    rw [reset_outside_eq tone_mix_range d.tone_mix tone_mix_reset_value hc]
    rfl
  · simp only [tone_mix]
    rw [reset_inside_eq tone_mix_range d.tone_mix tone_mix_reset_value h1 h2]
  · simp only [tone_mix, set_tone_mix]
    rw [clip_inside_eq tone_mix_range v h1 h2,
      reset_inside_eq tone_mix_range v tone_mix_reset_value h1 h2]
  · simp only [afsk_mark_freq]
    rw [reset_outside_eq afsk_freq_range d.afsk_mark_freq afsk_mark_reset_value hc]
    rfl
  · simp only [afsk_mark_freq]
    rw [reset_inside_eq afsk_freq_range d.afsk_mark_freq afsk_mark_reset_value h1 h2]
  · simp only [afsk_mark_freq, set_afsk_mark]
    rw [clip_inside_eq afsk_freq_range v h1 h2,
      reset_inside_eq afsk_freq_range v afsk_mark_reset_value h1 h2]
  · simp only [afsk_space_freq]
    rw [reset_outside_eq afsk_freq_range d.afsk_space_freq afsk_space_reset_value hc]
    rfl
  · simp only [afsk_space_freq]
    rw [reset_inside_eq afsk_freq_range d.afsk_space_freq afsk_space_reset_value h1 h2]
  · simp only [afsk_space_freq, set_afsk_space]
    rw [clip_inside_eq afsk_freq_range v h1 h2,
      reset_inside_eq afsk_freq_range v afsk_space_reset_value h1 h2]
  · simp only [modem_baudrate]
    rw [reset_outside_eq modem_baudrate_range d.modem_baudrate modem_baudrate_reset_value hc]
    rfl
  · simp only [modem_baudrate]
    rw [reset_inside_eq modem_baudrate_range d.modem_baudrate modem_baudrate_reset_value h1 h2]
  · simp only [modem_baudrate, set_modem_baudrate]
    rw [clip_inside_eq modem_baudrate_range v h1 h2,
      reset_inside_eq modem_baudrate_range v modem_baudrate_reset_value h1 h2]
  · simp only [modem_repeat]
    rw [reset_outside_eq modem_repeat_range d.modem_repeat modem_repeat_reset_value hc]
    simp only [modem_repeat_reset_value, Prod.mk.injEq]
    exact ⟨by decide, trivial⟩
  · simp only [modem_repeat]
    rw [reset_inside_eq modem_repeat_range d.modem_repeat modem_repeat_reset_value h1 h2]
    simp only [Prod.mk.injEq]
    exact ⟨by omega, trivial⟩
  · have ht : toInt32 u = (u : Int) := by
      unfold toInt32
      rw [Nat.mod_eq_of_lt (by omega), if_pos (by omega)]
    have hb1 : modem_repeat_range.minimum ≤ (u : Int) := by
      show (1 : Int) ≤ (u : Int)
      omega
    have hb2 : (u : Int) ≤ modem_repeat_range.maximum := by
      show (u : Int) ≤ 99
      omega
    simp only [modem_repeat, set_modem_repeat, ht]
    rw [clip_inside_eq modem_repeat_range (u : Int) hb1 hb2,
      reset_inside_eq modem_repeat_range (u : Int) modem_repeat_reset_value hb1 hb2]
    simp only [Prod.mk.injEq]
    exact ⟨by omega, trivial⟩
  · refine ⟨?_, ?_, ?_⟩
    · simp only [clkout_freq, clkout_freq_range_minimum, clkout_freq_range_maximum,
        clkout_freq_reset_value]
      rw [if_pos hc]
    · simp only [clkout_freq, clkout_freq_range_minimum, clkout_freq_range_maximum,
        clkout_freq_reset_value]
      rw [if_pos hc]
      exact clkout_extract_of_write d.ui_config 10000 (by norm_num)
    · have hex := clkout_extract_of_write d.ui_config 10000 (by norm_num)
      simp only [clkout_freq, clkout_freq_range_minimum, clkout_freq_range_maximum,
        clkout_freq_reset_value]
      rw [if_pos hc]
      norm_num [hex]
  · simp only [clkout_freq, clkout_freq_range_minimum, clkout_freq_range_maximum]
    rw [if_neg (by omega)]
  · have hclw : clkout_clip w = w := by
      simp only [clkout_clip, clkout_freq_range_minimum, clkout_freq_range_maximum]
      omega
    have hex := clkout_extract_of_write d.ui_config w (by omega)
    simp only [clkout_freq, set_clkout_freq, hclw, clkout_freq_range_minimum,
      clkout_freq_range_maximum]
    rw [hex, if_neg (by omega)]

/-- A record whose stored correction field is out of range. -/
def dHighPpb : data_t := { data_t.defaultValue with correction_ppb := 123456 }

/-- C5 witness: a read-repair at an out-of-range stored correction, an
in-range read of the default tone mix, and an in-range CLKOUT set-then-get. -/
theorem claim_C5_witness :
    correction_ppb dHighPpb = (0, { dHighPpb with correction_ppb := 0 }) ∧
    tone_mix data_t.defaultValue = (20, data_t.defaultValue) ∧
    clkout_freq (set_clkout_freq 500 data_t.defaultValue)
      = (500, set_clkout_freq 500 data_t.defaultValue) := by
  have h1 := claim_C5 dHighPpb ⟨0, 1⟩ 0 1 500
  have h2 := claim_C5 data_t.defaultValue ⟨0, 1⟩ 0 1 500
  exact ⟨h1.2.1.1 (by decide), h2.2.2.1.2.1 (by decide) (by decide),
    h2.2.2.2.2.2.2.2.2.2 (by decide) (by decide)⟩

end PortapackPM
